import Mathlib

/-!
Verification of the mutex-guard core of `core/base/inc/TVirtualMutex.h`:
the abstract `TVirtualMutex` lock interface, the RAII guards `TLockGuard`
and `ROOT::TLockSuspend`, and the `R__LOCKGUARD2` / `R__RWLOCK_*` macros.

The header declares `Lock`, `TryLock`, `UnLock`, `Reset`, `Restore` and
`Factory` as pure virtual: the concrete backend (TMutex, loaded with the
thread library) is not part of this core.  The backend is therefore
modelled from the spec as a recursive exclusive lock with an observable
hold depth, and every operation additionally records an event in a trace,
so that "called exactly once" properties of the guards are statable.
The guard and macro code itself is embedded directly from the header.
-/

/-- Modelled from the spec (the concrete backend behind the pure virtual
`TVirtualMutex` interface is outside this core): a recursive exclusive
lock.  `depth` is the hold depth (count of unmatched `Lock` calls, 0 =
unheld); `recursive` is the flag the factory was given; `lockStatus` and
`unlockStatus` are the status codes this backend reports from `Lock` and
`UnLock` (backend-defined, treated as arbitrary). -/
structure TVirtualMutex where
  depth : Nat
  recursive : Bool
  lockStatus : Int
  unlockStatus : Int
  unlockThrows : Bool
deriving DecidableEq

/-- `TVirtualMutex::State`: the opaque hold-state snapshot returned by
`Reset`.  Modelled from the spec: it captures exactly the hold depth
needed to restore the lock. -/
structure TVirtualMutex.State where
  depth : Nat
deriving DecidableEq

/-- Modelled from the spec: `Lock()` acquires one more level of hold
(recursive acquisition increments the depth) and returns the backend's
status code. -/
def TVirtualMutex.Lock (m : TVirtualMutex) : TVirtualMutex × Int :=
  ({ m with depth := m.depth + 1 }, m.lockStatus)

/-- Modelled from the spec: `UnLock()` releases one level of hold and
returns the backend's status code. -/
def TVirtualMutex.UnLock (m : TVirtualMutex) : TVirtualMutex × Int :=
  ({ m with depth := m.depth - 1 }, m.unlockStatus)

/-- Modelled from the spec: a second thread's `TryLock()` on this mutex
succeeds (returns `true`) exactly when the lock is unheld. -/
def TVirtualMutex.TryLockOther (m : TVirtualMutex) : Bool :=
  decide (m.depth = 0)

/-- Modelled from the spec: `Reset()` fully releases the lock regardless
of its recursive hold depth (depth becomes 0) and returns a snapshot
capturing the prior depth. -/
def TVirtualMutex.Reset (m : TVirtualMutex) : TVirtualMutex × TVirtualMutex.State :=
  ({ m with depth := 0 }, ⟨m.depth⟩)

/-- Modelled from the spec: `Restore(snapshot)` reacquires the lock to the
exact depth the snapshot represents, consuming the snapshot. -/
def TVirtualMutex.Restore (m : TVirtualMutex) (s : TVirtualMutex.State) : TVirtualMutex :=
  { m with depth := s.depth }

/-- Modelled from the spec: `Factory(recursive)` constructs a fresh, unheld
lock of the same backend kind (same status behaviour) with the given
recursion flag. -/
def TVirtualMutex.Factory (m : TVirtualMutex) (recursive : Bool) : TVirtualMutex :=
  { depth := 0, recursive := recursive, lockStatus := m.lockStatus,
    unlockStatus := m.unlockStatus, unlockThrows := m.unlockThrows }

/-- Modelled from the spec: `UnLock()` under a backend whose unlock may
signal a fatal condition by raising.  When `unlockThrows` is set the call
raises (models a C++ exception escaping `UnLock`); otherwise it behaves
like `TVirtualMutex.UnLock`. -/
def TVirtualMutex.UnLockE (m : TVirtualMutex) : TVirtualMutex × Except Unit Int :=
  if m.unlockThrows then (m, Except.error ())
  else ({ m with depth := m.depth - 1 }, Except.ok m.unlockStatus)

/-- One observable call made on the guarded mutex. -/
inductive MEvent
  | lock
  | unlock
  | reset (snap : Nat)
  | restore (snap : Nat)
deriving DecidableEq

/-- The guarded mutex together with the trace of calls made on it. -/
structure World where
  mutex : TVirtualMutex
  trace : List MEvent
deriving DecidableEq

/-- `TLockGuard` from the header: its only state is the (nullable) mutex
pointer `fMutex`.  There is a single mutex in each `World`, so the pointer
is embedded as the Boolean "is non-null". -/
structure TLockGuard where
  fMutex : Bool
deriving DecidableEq

/-- The `TLockGuard` constructor, from the header:
`TLockGuard(TVirtualMutex *mutex) : fMutex(mutex) { if (fMutex) fMutex->Lock(); }`.
The status returned by `Lock()` is discarded, exactly as in the source. -/
def TLockGuard.construct (mutexPtr : Bool) (w : World) : TLockGuard × World :=
  if mutexPtr then
    let (m, _) := w.mutex.Lock
    (⟨true⟩, ⟨m, w.trace ++ [MEvent.lock]⟩)
  else
    (⟨false⟩, w)

/-- `TLockGuard::UnLock()`, from the header:
`if (!fMutex) return 0; auto tmp = fMutex; fMutex = 0; return tmp->UnLock();`.
Returns the updated guard, the updated world and the returned status. -/
def TLockGuard.UnLock (g : TLockGuard) (w : World) : TLockGuard × World × Int :=
  if g.fMutex then
    let (m, r) := w.mutex.UnLock
    (⟨false⟩, ⟨m, w.trace ++ [MEvent.unlock]⟩, r)
  else
    (g, w, 0)

/-- The `TLockGuard` destructor, from the header:
`~TLockGuard() { if (fMutex) fMutex->UnLock(); }`. -/
def TLockGuard.destruct (g : TLockGuard) (w : World) : World :=
  if g.fMutex then
    let (m, _) := (w.mutex.UnLock)
    ⟨m, w.trace ++ [MEvent.unlock]⟩
  else
    w

/-- `k` successive explicit `TLockGuard::UnLock()` calls on the guard. -/
def TLockGuard.explicitUnlocks : Nat → TLockGuard × World → TLockGuard × World
  | 0, gw => gw
  | k + 1, (g, w) =>
      let (g1, w1, _) := g.UnLock w
      TLockGuard.explicitUnlocks k (g1, w1)

/-- A complete `TLockGuard` lifetime: construction, then `k` explicit
`UnLock()` calls (the ways control can leave the scope early differ only
in whether and how often the explicit escape hatch ran), then the
destructor, which C++ runs on every exit path, normal or unwinding. -/
def TLockGuard.lifetime (mutexPtr : Bool) (k : Nat) (w : World) : World :=
  let (g, w1) := TLockGuard.construct mutexPtr w
  let (g2, w2) := TLockGuard.explicitUnlocks k (g, w1)
  g2.destruct w2

/-- Helper: explicit `UnLock` calls on a guard whose reference is already
cleared change nothing. -/
theorem explicitUnlocks_cleared (k : Nat) (w : World) :
    TLockGuard.explicitUnlocks k (⟨false⟩, w) = (⟨false⟩, w) := by
  induction k with
  | zero => rfl
  | succ n ih =>
      simp only [TLockGuard.explicitUnlocks, TLockGuard.UnLock]
      exact ih

/-- Helper: a lifetime of a guard on a non-null mutex records exactly one
`lock` followed by exactly one `unlock`, whatever `k` is, and returns the
mutex to its original depth. -/
theorem lifetime_trace (k : Nat) (w : World) :
    TLockGuard.lifetime true k w =
      ⟨{ w.mutex with depth := w.mutex.depth + 1 - 1 },
        w.trace ++ [MEvent.lock, MEvent.unlock]⟩ := by
  cases k with
  | zero =>
      simp [TLockGuard.lifetime, TLockGuard.construct, TLockGuard.explicitUnlocks,
        TLockGuard.destruct, TVirtualMutex.Lock, TVirtualMutex.UnLock]
  | succ n =>
      simp only [TLockGuard.lifetime, TLockGuard.construct, if_pos,
        TLockGuard.explicitUnlocks, TLockGuard.UnLock, TVirtualMutex.Lock,
        TVirtualMutex.UnLock, explicitUnlocks_cleared, TLockGuard.destruct]
      simp

/-- C1: a `TLockGuard` constructed on a non-null mutex calls `Lock()` on it
exactly once during construction (the hold depth rises by one, so the lock
is held on entry to the guarded scope), and over its whole lifetime —
whether the scope exits through the destructor alone or after any number
of explicit `UnLock()` calls — `UnLock()` is called on the mutex exactly
once, never twice. -/
theorem C1_lockguard_lock_unlock_once (w : World) (k : Nat) :
    (TLockGuard.construct true w).2.trace = w.trace ++ [MEvent.lock] ∧
    (TLockGuard.construct true w).2.mutex.depth = w.mutex.depth + 1 ∧
    (TLockGuard.lifetime true k w).trace = w.trace ++ [MEvent.lock, MEvent.unlock] := by
  refine ⟨?_, ?_, ?_⟩
  · simp [TLockGuard.construct, TVirtualMutex.Lock]
  · simp [TLockGuard.construct, TVirtualMutex.Lock]
  · rw [lifetime_trace]

/-- `ROOT::TLockSuspend` from the header: the immutable mutex pointer
`fMutex` (again a Boolean "is non-null") and the owned snapshot `fState`
(a `unique_ptr`, null until the constructor fills it). -/
structure TLockSuspend where
  fMutex : Bool
  fState : Option TVirtualMutex.State
deriving DecidableEq

/-- The `TLockSuspend` constructor, from the header:
`TLockSuspend(TVirtualMutex *mutex) : fMutex(mutex) { if (fMutex) fState = mutex->Reset(); }`. -/
def TLockSuspend.construct (mutexPtr : Bool) (w : World) : TLockSuspend × World :=
  if mutexPtr then
    let (m, st) := w.mutex.Reset
    (⟨true, some st⟩, ⟨m, w.trace ++ [MEvent.reset st.depth]⟩)
  else
    (⟨false, none⟩, w)

/-- The `TLockSuspend` destructor, from the header:
`~TLockSuspend() { if (fMutex) fMutex->Restore(std::move(fState)); }`.
For every guard produced by the constructor, `fMutex` non-null implies
`fState` is set; the `none` branch is unreachable for such guards. -/
def TLockSuspend.destruct (g : TLockSuspend) (w : World) : World :=
  if g.fMutex then
    match g.fState with
    | some st => ⟨w.mutex.Restore st, w.trace ++ [MEvent.restore st.depth]⟩
    | none => w
  else
    w

/-- A complete `TLockSuspend` lifetime: construction then destruction
(the destructor runs on every exit path; the class has no explicit
early-release method). -/
def TLockSuspend.lifetime (mutexPtr : Bool) (w : World) : World :=
  let (g, w1) := TLockSuspend.construct mutexPtr w
  g.destruct w1

/-- C2: a `TLockSuspend` constructed on a non-null mutex calls `Reset()` on
it exactly once (the hold depth is 0 for the whole guard lifetime) and
stores the returned snapshot; the destructor calls `Restore()` exactly once
with that same snapshot, re-establishing the hold depth the mutex had
before construction, on every exit path. -/
theorem C2_locksuspend_reset_restore (w : World) :
    (TLockSuspend.construct true w).2.trace = w.trace ++ [MEvent.reset w.mutex.depth] ∧
    (TLockSuspend.construct true w).2.mutex.depth = 0 ∧
    (TLockSuspend.construct true w).1.fState = some ⟨w.mutex.depth⟩ ∧
    (TLockSuspend.lifetime true w).trace =
      w.trace ++ [MEvent.reset w.mutex.depth, MEvent.restore w.mutex.depth] ∧
    (TLockSuspend.lifetime true w).mutex.depth = w.mutex.depth := by
  refine ⟨?_, ?_, ?_, ?_, ?_⟩ <;>
    simp [TLockSuspend.construct, TLockSuspend.lifetime, TLockSuspend.destruct,
      TVirtualMutex.Reset, TVirtualMutex.Restore]

/-- C3: for a mutex in any hold state, `Reset()` immediately followed by
`Restore()` with the returned snapshot leaves the mutex in exactly the
state (in particular the observable hold depth) it had before `Reset()`. -/
theorem C3_reset_restore_roundtrip (m : TVirtualMutex) :
    (m.Reset.1.Restore m.Reset.2) = m ∧
    (m.Reset.1.Restore m.Reset.2).depth = m.depth := by
  constructor
  · simp [TVirtualMutex.Reset, TVirtualMutex.Restore]
  · simp [TVirtualMutex.Reset, TVirtualMutex.Restore]

/-- One call in a single-thread `Lock`/`UnLock` sequence. -/
inductive LockOp
  | lock
  | unlock
deriving DecidableEq

/-- Number of `Lock()` calls in the sequence. -/
def nLock : List LockOp → Nat
  | [] => 0
  | LockOp.lock :: rest => nLock rest + 1
  | LockOp.unlock :: rest => nLock rest

/-- Number of `UnLock()` calls in the sequence. -/
def nUnlock : List LockOp → Nat
  | [] => 0
  | LockOp.lock :: rest => nUnlock rest
  | LockOp.unlock :: rest => nUnlock rest + 1

/-- Run a sequence of `Lock()`/`UnLock()` calls on the mutex. -/
def runOps (m : TVirtualMutex) : List LockOp → TVirtualMutex
  | [] => m
  | LockOp.lock :: rest => runOps (m.Lock).1 rest
  | LockOp.unlock :: rest => runOps (m.UnLock).1 rest

/-- Starting from hold depth `d`, no `UnLock()` in the sequence ever
exceeds the prior `Lock()` calls. -/
def balancedFrom (d : Nat) : List LockOp → Bool
  | [] => true
  | LockOp.lock :: rest => balancedFrom (d + 1) rest
  | LockOp.unlock :: rest => if d = 0 then false else balancedFrom (d - 1) rest

/-- Helper: depth accounting for a balanced sequence, in addition form. -/
theorem runOps_depth (ops : List LockOp) (m : TVirtualMutex)
    (h : balancedFrom m.depth ops = true) :
    (runOps m ops).depth + nUnlock ops = m.depth + nLock ops := by
  induction ops generalizing m with
  | nil => simp [runOps, nLock, nUnlock]
  | cons op rest ih =>
      cases op with
      | lock =>
          have h1 : balancedFrom (m.Lock).1.depth rest = true := by
            simpa [TVirtualMutex.Lock, balancedFrom] using h
          have hrec := ih (m.Lock).1 h1
          simp only [runOps, nLock, nUnlock]
          simp only [TVirtualMutex.Lock] at hrec ⊢
          omega
      | unlock =>
          have hd : m.depth ≠ 0 := by
            intro h0
            simp [balancedFrom, h0] at h
          have h1 : balancedFrom (m.UnLock).1.depth rest = true := by
            simp only [balancedFrom, if_neg hd] at h
            simpa [TVirtualMutex.UnLock] using h
          have hrec := ih (m.UnLock).1 h1
          simp only [runOps, nLock, nUnlock]
          simp only [TVirtualMutex.UnLock] at hrec ⊢
          omega

/-- Helper: a balanced sequence never drives the unlock count above the
lock count plus the starting depth. -/
theorem balanced_count_le (ops : List LockOp) (d : Nat)
    (h : balancedFrom d ops = true) : nUnlock ops ≤ d + nLock ops := by
  induction ops generalizing d with
  | nil => simp [nLock, nUnlock]
  | cons op rest ih =>
      cases op with
      | lock =>
          have hrec := ih (d + 1) (by simpa [balancedFrom] using h)
          simp only [nLock, nUnlock]
          omega
      | unlock =>
          have hd : d ≠ 0 := by
            intro h0
            simp [balancedFrom, h0] at h
          have hrec := ih (d - 1) (by simpa [balancedFrom, if_neg hd] using h)
          simp only [nLock, nUnlock]
          omega

/-- C4: for a finite single-thread sequence of `Lock()`/`UnLock()` calls on
one mutex, starting unheld, with `UnLock()` never exceeding the prior
`Lock()` calls, the final hold depth equals (#Lock − #UnLock), and another
thread's `TryLock()` fails exactly when that depth is positive. -/
theorem C4_depth_counts_locks (m : TVirtualMutex) (ops : List LockOp)
    (h0 : m.depth = 0) (hbal : balancedFrom 0 ops = true) :
    (runOps m ops).depth = nLock ops - nUnlock ops ∧
    ((runOps m ops).TryLockOther = false ↔ 0 < nLock ops - nUnlock ops) := by
  have hb : balancedFrom m.depth ops = true := by rw [h0]; exact hbal
  have hdep := runOps_depth ops m hb
  have hle := balanced_count_le ops 0 hbal
  rw [h0] at hdep
  constructor
  · omega
  · simp only [TVirtualMutex.TryLockOther, decide_eq_false_iff_not]
    omega

/-- Witness for C4 at the concrete sequence `[Lock, Lock, UnLock]` from a
concrete unheld mutex: depth ends at 1 and a second thread's `TryLock`
fails. -/
theorem C4_depth_counts_locks_witness :
    (⟨0, true, 0, 0, false⟩ : TVirtualMutex).depth = 0 ∧
    balancedFrom 0 [LockOp.lock, LockOp.lock, LockOp.unlock] = true ∧
    ((runOps ⟨0, true, 0, 0, false⟩ [LockOp.lock, LockOp.lock, LockOp.unlock]).depth =
        nLock [LockOp.lock, LockOp.lock, LockOp.unlock] -
          nUnlock [LockOp.lock, LockOp.lock, LockOp.unlock] ∧
      ((runOps ⟨0, true, 0, 0, false⟩ [LockOp.lock, LockOp.lock, LockOp.unlock]).TryLockOther = false ↔
        0 < nLock [LockOp.lock, LockOp.lock, LockOp.unlock] -
          nUnlock [LockOp.lock, LockOp.lock, LockOp.unlock])) :=
  ⟨by decide, by decide,
    C4_depth_counts_locks ⟨0, true, 0, 0, false⟩ [LockOp.lock, LockOp.lock, LockOp.unlock]
      (by decide) (by decide)⟩

/-- C5: the explicit `TLockGuard::UnLock()` returns the underlying mutex's
`UnLock()` status when the guard holds a mutex, returns 0 when it holds
nothing, and clears the guard's reference, so that a subsequent destructor
run or second `UnLock()` call performs no mutex operation (and the second
call returns 0). -/
theorem C5_lockguard_explicit_unlock (w : World) :
    (TLockGuard.UnLock ⟨true⟩ w).2.2 = w.mutex.unlockStatus ∧
    (TLockGuard.UnLock ⟨true⟩ w).2.1.trace = w.trace ++ [MEvent.unlock] ∧
    (TLockGuard.UnLock ⟨true⟩ w).1 = ⟨false⟩ ∧
    (TLockGuard.UnLock ⟨false⟩ w).2.1 = w ∧
    (TLockGuard.UnLock ⟨false⟩ w).2.2 = 0 ∧
    ((TLockGuard.UnLock ⟨true⟩ w).1).destruct (TLockGuard.UnLock ⟨true⟩ w).2.1 =
      (TLockGuard.UnLock ⟨true⟩ w).2.1 ∧
    TLockGuard.UnLock (TLockGuard.UnLock ⟨true⟩ w).1 (TLockGuard.UnLock ⟨true⟩ w).2.1 =
      ((TLockGuard.UnLock ⟨true⟩ w).1, (TLockGuard.UnLock ⟨true⟩ w).2.1, 0) := by
  refine ⟨?_, ?_, ?_, ?_, ?_, ?_, ?_⟩ <;>
    simp [TLockGuard.UnLock, TLockGuard.destruct, TVirtualMutex.UnLock]

/-- C6: a `TLockGuard` or `TLockSuspend` constructed with a null mutex
pointer performs no mutex operation during construction, destruction or an
explicit `UnLock()` call; `UnLock()` returns 0 and the world (mutex state
and trace) is left completely unchanged. -/
theorem C6_null_guard_noop (w : World) (k : Nat) :
    TLockGuard.construct false w = (⟨false⟩, w) ∧
    TLockGuard.lifetime false k w = w ∧
    (TLockGuard.UnLock ⟨false⟩ w).2.1 = w ∧
    (TLockGuard.UnLock ⟨false⟩ w).2.2 = 0 ∧
    TLockSuspend.construct false w = (⟨false, none⟩, w) ∧
    TLockSuspend.lifetime false w = w := by
  refine ⟨?_, ?_, ?_, ?_, ?_, ?_⟩ <;>
    simp [TLockGuard.construct, TLockGuard.lifetime, TLockGuard.UnLock,
      TLockGuard.destruct, explicitUnlocks_cleared, TLockSuspend.construct,
      TLockSuspend.lifetime, TLockSuspend.destruct]

/-- C7 counterexample: the claim says every status the backend's `Lock()`
reports is observable by the caller, but the `TLockGuard` constructor
discards the value of `fMutex->Lock()` (`if (fMutex) fMutex->Lock();`).
Concretely, with the backend reporting error status 7 from `Lock()`
instead of 0, everything construction makes observable — the resulting
guard, the mutex hold depth and the call trace — is identical, so the
status 7 is swallowed. -/
theorem C7_cex_ctor_swallows_lock_status :
    (TLockGuard.construct true ⟨⟨0, true, 7, 0, false⟩, []⟩).1 =
      (TLockGuard.construct true ⟨⟨0, true, 0, 0, false⟩, []⟩).1 ∧
    (TLockGuard.construct true ⟨⟨0, true, 7, 0, false⟩, []⟩).2.mutex.depth =
      (TLockGuard.construct true ⟨⟨0, true, 0, 0, false⟩, []⟩).2.mutex.depth ∧
    (TLockGuard.construct true ⟨⟨0, true, 7, 0, false⟩, []⟩).2.trace =
      (TLockGuard.construct true ⟨⟨0, true, 0, 0, false⟩, []⟩).2.trace := by
  decide

/-- C7 as amended: the status reported by the backend's `UnLock()` is
passed to the caller verbatim — neither swallowed nor converted, for every
possible backend status value — by an explicit `TLockGuard::UnLock()` on a
holding guard; statuses arising inside the constructor and the destructor
are necessarily discarded (constructors and destructors return nothing);
and the release (`UnLock`) or restore (`Restore`) call itself is still
performed on every exit path of either guard. -/
theorem C7_guard_status_passthrough (w : World) (k : Nat) :
    (TLockGuard.UnLock ⟨true⟩ w).2.2 = w.mutex.unlockStatus ∧
    (TLockGuard.lifetime true k w).trace = w.trace ++ [MEvent.lock, MEvent.unlock] ∧
    (TLockSuspend.lifetime true w).trace =
      w.trace ++ [MEvent.reset w.mutex.depth, MEvent.restore w.mutex.depth] := by
  refine ⟨?_, ?_, ?_⟩
  · simp [TLockGuard.UnLock, TVirtualMutex.UnLock]
  · rw [lifetime_trace]
  · simp [TLockSuspend.lifetime, TLockSuspend.construct, TLockSuspend.destruct,
      TVirtualMutex.Reset, TVirtualMutex.Restore]

/-- One call invoked on the external read/write lock. -/
inductive RWOp
  | readLock
  | readUnLock
  | writeLock
  | writeUnLock
deriving DecidableEq

/-- Modelled from the spec: the external read/write-lock capability the
`R__RWLOCK_*` helpers delegate to (out of scope for this core); its state
records the operations invoked on it. -/
structure RWLockT where
  events : List RWOp
deriving DecidableEq

/-- Modelled from the spec: `rwlock.ReadLock()`. -/
def RWLockT.ReadLock (rw : RWLockT) : RWLockT := ⟨rw.events ++ [RWOp.readLock]⟩

/-- Modelled from the spec: `rwlock.ReadUnLock()`. -/
def RWLockT.ReadUnLock (rw : RWLockT) : RWLockT := ⟨rw.events ++ [RWOp.readUnLock]⟩

/-- Modelled from the spec: `rwlock.WriteLock()`. -/
def RWLockT.WriteLock (rw : RWLockT) : RWLockT := ⟨rw.events ++ [RWOp.writeLock]⟩

/-- Modelled from the spec: `rwlock.WriteUnLock()`. -/
def RWLockT.WriteUnLock (rw : RWLockT) : RWLockT := ⟨rw.events ++ [RWOp.writeUnLock]⟩

/-- `R__RWLOCK_ACQUIRE_READ(rwlock)` from the header: when compiled with
`R__USE_IMT` it runs `if (ROOT::Internal::IsParTreeProcessingEnabled()) rwlock.ReadLock();`;
when compiled without, it expands to `{ }`.  `useIMT` is the compile-time
switch, `parTree` the runtime flag. -/
def R__RWLOCK_ACQUIRE_READ (useIMT parTree : Bool) (rw : RWLockT) : RWLockT :=
  if useIMT then (if parTree then rw.ReadLock else rw) else rw

/-- `R__RWLOCK_RELEASE_READ(rwlock)` from the header, as above. -/
def R__RWLOCK_RELEASE_READ (useIMT parTree : Bool) (rw : RWLockT) : RWLockT :=
  if useIMT then (if parTree then rw.ReadUnLock else rw) else rw

/-- `R__RWLOCK_ACQUIRE_WRITE(rwlock)` from the header, as above. -/
def R__RWLOCK_ACQUIRE_WRITE (useIMT parTree : Bool) (rw : RWLockT) : RWLockT :=
  if useIMT then (if parTree then rw.WriteLock else rw) else rw

/-- `R__RWLOCK_RELEASE_WRITE(rwlock)` from the header, as above. -/
def R__RWLOCK_RELEASE_WRITE (useIMT parTree : Bool) (rw : RWLockT) : RWLockT :=
  if useIMT then (if parTree then rw.WriteUnLock else rw) else rw

/-- C8: each read/write-lock helper invokes the corresponding operation on
the rwlock exactly when the runtime parallel-tree-processing flag is
enabled and `R__USE_IMT` is compiled in; otherwise (flag disabled, or
compiled out) it performs no operation on the rwlock. -/
theorem C8_rwlock_helpers_gated (u p : Bool) (rw : RWLockT) :
    R__RWLOCK_ACQUIRE_READ u p rw = (if u && p then rw.ReadLock else rw) ∧
    R__RWLOCK_RELEASE_READ u p rw = (if u && p then rw.ReadUnLock else rw) ∧
    R__RWLOCK_ACQUIRE_WRITE u p rw = (if u && p then rw.WriteLock else rw) ∧
    R__RWLOCK_RELEASE_WRITE u p rw = (if u && p then rw.WriteUnLock else rw) := by
  refine ⟨?_, ?_, ?_, ?_⟩ <;> cases u <;> cases p <;>
    simp [R__RWLOCK_ACQUIRE_READ, R__RWLOCK_RELEASE_READ,
      R__RWLOCK_ACQUIRE_WRITE, R__RWLOCK_RELEASE_WRITE]

/-- `TLockGuard::UnLock()` embedded under a backend whose `UnLock()` may
raise (same source lines as `TLockGuard.UnLock`):
`auto tmp = fMutex; fMutex = 0; return tmp->UnLock();` clears the guard's
reference strictly before invoking `UnLock()` on the mutex, so the cleared
guard is what remains even when the call raises and the exception escapes
the explicit `UnLock()` call.  The invocation is recorded in the trace
whether or not it raises. -/
def TLockGuard.UnLockExc (g : TLockGuard) (w : World) : TLockGuard × World × Except Unit Int :=
  if g.fMutex then
    let cleared : TLockGuard := ⟨false⟩
    let (m, r) := w.mutex.UnLockE
    (cleared, ⟨m, w.trace ++ [MEvent.unlock]⟩, r)
  else
    (g, w, Except.ok 0)

/-- C9: `TLockGuard::UnLock()` clears the guard's mutex reference strictly
before invoking `UnLock()` on the mutex: for every backend — including one
whose `UnLock()` raises, so that the exception escapes the explicit call —
the guard's reference ends up null and a subsequent destructor run
performs no second unlock (the world is untouched by the destructor). -/
theorem C9_unlock_clears_before_call (w : World) :
    (TLockGuard.UnLockExc ⟨true⟩ w).1 = ⟨false⟩ ∧
    ((TLockGuard.UnLockExc ⟨true⟩ w).1).destruct (TLockGuard.UnLockExc ⟨true⟩ w).2.1 =
      (TLockGuard.UnLockExc ⟨true⟩ w).2.1 ∧
    (TLockGuard.UnLockExc ⟨true⟩ w).2.2 =
      (if w.mutex.unlockThrows then Except.error () else Except.ok w.mutex.unlockStatus) := by
  refine ⟨?_, ?_, ?_⟩
  · simp [TLockGuard.UnLockExc, TVirtualMutex.UnLockE]
  · by_cases h : w.mutex.unlockThrows <;>
      simp [TLockGuard.UnLockExc, TLockGuard.destruct, TVirtualMutex.UnLockE, h]
  · by_cases h : w.mutex.unlockThrows <;>
      simp [TLockGuard.UnLockExc, TVirtualMutex.UnLockE, h]

/-- One call recorded while `R__LOCKGUARD2` runs: on the global mutex
(`gLock`, `gUnLock`, `gFactory`) or on the guarded mutex (`mLock`). -/
inductive GEvent
  | gLock
  | gUnLock
  | gFactory (recursive : Bool)
  | mLock
deriving DecidableEq

/-- The state `R__LOCKGUARD2` operates on: the global mutex pointer
`gGlobalMutex`, the caller's `mutex` pointer (the macro may assign it),
and the trace of calls made while the macro runs. -/
structure LG2State where
  gGlobal : Option TVirtualMutex
  mutex : Option TVirtualMutex
  trace : List GEvent
deriving DecidableEq

/-- `R__LOCKGUARD2(mutex)` from the header:
`if (gGlobalMutex && !mutex) { gGlobalMutex->Lock(); if (!mutex) mutex = gGlobalMutex->Factory(kTRUE); gGlobalMutex->UnLock(); } R__LOCKGUARD(mutex)`.
The inner `if (!mutex)` repeats the null check under the global lock
(double-checked creation); the trailing `R__LOCKGUARD(mutex)` constructs a
`TLockGuard` on `mutex`, which calls `Lock()` on it when non-null. -/
def R__LOCKGUARD2 (s : LG2State) : LG2State :=
  let s1 : LG2State :=
    match s.gGlobal, s.mutex with
    | some g, none =>
        let (gA, _) := g.Lock
        let t0 := s.trace ++ [GEvent.gLock]
        let (mu, t1) :=
          match s.mutex with
          | none => (some (gA.Factory true), t0 ++ [GEvent.gFactory true])
          | some m => (some m, t0)
        let (gB, _) := gA.UnLock
        { gGlobal := some gB, mutex := mu, trace := t1 ++ [GEvent.gUnLock] }
    | _, _ => s
  match s1.mutex with
  | some m =>
      let (m1, _) := m.Lock
      { s1 with mutex := some m1, trace := s1.trace ++ [GEvent.mLock] }
  | none => s1

/-- C10: running `R__LOCKGUARD2(mutex)` with `gGlobalMutex` non-null and
`mutex` null creates the mutex with `gGlobalMutex->Factory(kTRUE)` (a
recursive lock), bracketed by `gGlobalMutex->Lock()` and
`gGlobalMutex->UnLock()` (the global mutex's depth is unchanged overall),
and only then constructs the `TLockGuard` on the now non-null mutex, which
locks it. -/
theorem C10_lockguard2_creates_mutex (g : TVirtualMutex) (tr : List GEvent) :
    R__LOCKGUARD2 ⟨some g, none, tr⟩ =
      ⟨some ((g.Lock).1.UnLock).1, some (((g.Factory true).Lock)).1,
        tr ++ [GEvent.gLock, GEvent.gFactory true, GEvent.gUnLock, GEvent.mLock]⟩ ∧
    (g.Factory true).recursive = true ∧
    ((g.Lock).1.UnLock).1.depth = g.depth ∧
    (((g.Factory true).Lock)).1.depth = 1 := by
  refine ⟨?_, ?_, ?_, ?_⟩
  · simp [R__LOCKGUARD2, TVirtualMutex.Lock, TVirtualMutex.UnLock, TVirtualMutex.Factory]
  · simp [TVirtualMutex.Factory]
  · simp [TVirtualMutex.Lock, TVirtualMutex.UnLock]
  · simp [TVirtualMutex.Lock, TVirtualMutex.Factory]
